import Mathlib

/-!
Verification of the host-to-script value-marshalling engine
(`jobject_to_js_value.c`).  The host (JVM) object model and the destination
scripting runtime's value model are shallowly embedded; the converter
functions below are transcribed from the C source, including its control flow
on every success and failure path.  External collaborators (the JNI accessor
layer, the QuickJS value API and the error-construction utilities) are
modelled as small pure helpers, as the spec treats them as opaque.

Object identity: the JNI `IsSameObject` test compares reference identity.
Every non-null host value carries a numeric identity tag; two values model
the same host object exactly when their tags coincide.  A container that
holds itself is modelled by an element carrying the container's tag (the
cycle guard fires before such an element is ever traversed).
-/

namespace JObjMap

/-- A host (JVM) value as seen by the converter.  Each non-null constructor
carries the object's identity tag first.  Numeric `Float`/`Double` payloads
are carried as opaque `Int` payloads: no claim inspects float arithmetic,
only the routing and tagging of such values. -/
inductive HostValue where
  | hNull : HostValue
  | hBoolean (id : Nat) (b : Bool) : HostValue
  | hInteger (id : Nat) (v : Int) : HostValue
  | hLong (id : Nat) (v : Int) : HostValue
  | hFloat (id : Nat) (payload : Int) : HostValue
  | hDouble (id : Nat) (payload : Int) : HostValue
  | hString (id : Nat) (s : String) : HostValue
  | hList (id : Nat) (elems : List HostValue) : HostValue
  | hJsObject (id : Nat) (entries : List (HostValue × HostValue)) : HostValue
  | hMap (id : Nat) (entries : List (HostValue × HostValue)) : HostValue
  | hSet (id : Nat) (elems : List HostValue) : HostValue
  | hThrowable (id : Nat) (clsName : String) (message : Option String)
      (stackLines : List String) : HostValue
  | hUnit (id : Nat) : HostValue
  | hBooleanArray (id : Nat) (elems : List Bool) : HostValue
  | hIntArray (id : Nat) (elems : List Int) : HostValue
  | hLongArray (id : Nat) (elems : List Int) : HostValue
  | hFloatArray (id : Nat) (elems : List Int) : HostValue
  | hDoubleArray (id : Nat) (elems : List Int) : HostValue
  | hObjectArray (id : Nat) (elems : List HostValue) : HostValue
  | hUnsupported (id : Nat) (clsName : String) : HostValue

/-- A destination (QuickJS) value.  `jsNumInt` models numbers created with
`JS_NewInt32`/`JS_NewInt64`; `jsNumFloat` those created with `JS_NewFloat64`
(for host floats the payload is the opaque payload carried by the host
value).  `jsException` is the `JS_EXCEPTION` sentinel. -/
inductive ScriptValue where
  | jsNull : ScriptValue
  | jsUndefined : ScriptValue
  | jsBool (b : Bool) : ScriptValue
  | jsNumInt (v : Int) : ScriptValue
  | jsNumFloat (payload : Int) : ScriptValue
  | jsString (s : String) : ScriptValue
  | jsArray (elems : List ScriptValue) : ScriptValue
  | jsObject (props : List (String × ScriptValue)) : ScriptValue
  | jsMapInstance (arg : ScriptValue) : ScriptValue
  | jsSetInstance (arg : ScriptValue) : ScriptValue
  | jsError (props : List (String × ScriptValue)) : ScriptValue
  | jsException : ScriptValue

/-- An error raised into the destination runtime: a kind name plus message.
This is the payload handed to `JS_Throw` by the converter. -/
structure JsErr where
  name : String
  message : String
deriving DecidableEq

/-- The mutable portion of the `JSContext` the converter touches: the pending
raised error, and the log of destination values released with `JS_FreeValue`
(recorded so discard-on-error behaviour is observable in theorems).  The
table of global constructors is never written by this code; it is passed
around separately as a read-only list `G` of defined global names. -/
structure Ctx where
  pending : Option JsErr
  freed : List ScriptValue

/-- Modelled from the spec: `new_js_error` (external error-construction
utility, not under src/) builds a destination error of the given kind name
and message; the source always calls it with zero extra arguments. -/
def new_js_error (name : String) (message : String) : JsErr :=
  ⟨name, message⟩

/-- Modelled from the spec: `new_simple_js_error` (external error-construction
utility, not under src/) builds the error used by the cycle guard; the spec
names this error kind `CircularReferenceError`, with a fixed message. -/
def new_simple_js_error (message : String) : JsErr :=
  ⟨"CircularReferenceError", message⟩

/-- `JS_Throw` (QuickJS API, external): records the raised error as the
context's pending exception. -/
def JS_Throw (ctx : Ctx) (e : JsErr) : Ctx :=
  { ctx with pending := some e }

/-- `JS_FreeValue` (QuickJS API, external): releasing a destination value is
recorded in the context's free log. -/
def JS_FreeValue (ctx : Ctx) (v : ScriptValue) : Ctx :=
  { ctx with freed := ctx.freed ++ [v] }

/-- `JS_IsException` (QuickJS API, external). -/
def JS_IsException : ScriptValue → Bool
  | .jsException => true
  | _ => false

/-- `JS_IsUndefined` (QuickJS API, external). -/
def JS_IsUndefined : ScriptValue → Bool
  | .jsUndefined => true
  | _ => false

/-- The supported host runtime classes/interfaces tested by the dispatcher's
`IsInstanceOf` chain, in the source's naming. -/
inductive HClass where
  | cBoolean | cInteger | cLong | cFloat | cDouble | cString
  | cList | cJsObject | cMap | cSet | cThrowable

/-- JNI `IsInstanceOf` (host object model, external).  A `JsObject` is a Map
delegate, so it answers true both for the JsObject class and for the Map
interface; every other shape matches exactly one class. -/
def isInstanceOf : HostValue → HClass → Bool
  | .hBoolean .., .cBoolean => true
  | .hInteger .., .cInteger => true
  | .hLong .., .cLong => true
  | .hFloat .., .cFloat => true
  | .hDouble .., .cDouble => true
  | .hString .., .cString => true
  | .hList .., .cList => true
  | .hJsObject .., .cJsObject => true
  | .hJsObject .., .cMap => true
  | .hMap .., .cMap => true
  | .hSet .., .cSet => true
  | .hThrowable .., .cThrowable => true
  | _, _ => false

/-- The identity tag of a host value (`none` for the null reference). -/
def identOf : HostValue → Option Nat
  | .hNull => none
  | .hBoolean id _ => some id
  | .hInteger id _ => some id
  | .hLong id _ => some id
  | .hFloat id _ => some id
  | .hDouble id _ => some id
  | .hString id _ => some id
  | .hList id _ => some id
  | .hJsObject id _ => some id
  | .hMap id _ => some id
  | .hSet id _ => some id
  | .hThrowable id _ _ _ => some id
  | .hUnit id => some id
  | .hBooleanArray id _ => some id
  | .hIntArray id _ => some id
  | .hLongArray id _ => some id
  | .hFloatArray id _ => some id
  | .hDoubleArray id _ => some id
  | .hObjectArray id _ => some id
  | .hUnsupported id _ => some id

/-- JNI `IsSameObject` (external) between an enclosing container (known by
its identity tag) and an element: reference identity. -/
def isSameObject (containerId : Nat) (e : HostValue) : Bool :=
  identOf e == some containerId

/-- The host value's class name, as returned by `Class.getName` (external).
Only the names consulted by the class-name fallback dispatch matter. -/
def getClassName : HostValue → String
  | .hNull => ""
  | .hBoolean .. => "java.lang.Boolean"
  | .hInteger .. => "java.lang.Integer"
  | .hLong .. => "java.lang.Long"
  | .hFloat .. => "java.lang.Float"
  | .hDouble .. => "java.lang.Double"
  | .hString .. => "java.lang.String"
  | .hList .. => "java.util.List"
  | .hJsObject .. => "com.dokar.quickjs.binding.JsObject"
  | .hMap .. => "java.util.Map"
  | .hSet .. => "java.util.Set"
  | .hThrowable _ n _ _ => n
  | .hUnit _ => "kotlin.Unit"
  | .hBooleanArray .. => "[Z"
  | .hIntArray .. => "[I"
  | .hLongArray .. => "[J"
  | .hFloatArray .. => "[F"
  | .hDoubleArray .. => "[D"
  | .hObjectArray .. => "[Ljava.lang.Object;"
  | .hUnsupported _ n => n

/-- The `cls_name[0]` test from the source: array classes have a class name
whose first character is an opening bracket. -/
def firstCharIsBracket (s : String) : Bool :=
  match s.data with
  | [] => false
  | c :: _ => c == '['

/-- `value == NULL` test on the incoming reference. -/
def isNullRef : HostValue → Bool
  | .hNull => true
  | _ => false

/-- Java's narrowing conversion from a 64-bit integer to a 32-bit one:
keep the low 32 bits, reinterpreted as signed. -/
def toInt32 (v : Int) : Int :=
  (v + 2 ^ 31) % 2 ^ 32 - 2 ^ 31

/-- JNI `CallBooleanMethod` with `Boolean.booleanValue` (external). -/
def booleanValue : HostValue → Bool
  | .hBoolean _ b => b
  | _ => false

/-- JNI `CallIntMethod` with the cached `Integer.intValue` method id
(external).  The source uses this same method id for the boxed `Long` case,
so a `Long` is narrowed to its low 32 bits (`Long.intValue`). -/
def intValue : HostValue → Int
  | .hInteger _ v => toInt32 v
  | .hLong _ v => toInt32 v
  | _ => 0

/-- JNI `CallFloatMethod` with `Float.floatValue` (external). -/
def floatValue : HostValue → Int
  | .hFloat _ p => p
  | _ => 0

/-- JNI `CallDoubleMethod` with `Double.doubleValue` (external). -/
def doubleValue : HostValue → Int
  | .hDouble _ p => p
  | _ => 0

/-- JNI `GetStringUTFChars` on a host string (external). -/
def stringChars : HostValue → String
  | .hString _ s => s
  | _ => ""

/-- `GetBooleanArrayElements` (external). -/
def boolArrayElems : HostValue → List Bool
  | .hBooleanArray _ es => es
  | _ => []

/-- `GetIntArrayElements` (external). -/
def intArrayElems : HostValue → List Int
  | .hIntArray _ es => es
  | _ => []

/-- `GetLongArrayElements` (external). -/
def longArrayElems : HostValue → List Int
  | .hLongArray _ es => es
  | _ => []

/-- `GetFloatArrayElements` (external). -/
def floatArrayElems : HostValue → List Int
  | .hFloatArray _ es => es
  | _ => []

/-- `GetDoubleArrayElements` (external). -/
def doubleArrayElems : HostValue → List Int
  | .hDoubleArray _ es => es
  | _ => []

/-- `throw_circular_ref_error` from the source: raise the cycle-guard error
with its fixed message. -/
def throw_circular_ref_error (ctx : Ctx) : Ctx :=
  JS_Throw ctx (new_simple_js_error "Unable to map objects with circular reference.")

/-- `JS_CallConstructor` (QuickJS API, external) on a global constructor
looked up by name; the source only ever invokes the `Set` and `Map`
constructors, each with the intermediate array as single argument. -/
def JS_CallConstructor (cname : String) (arg : ScriptValue) : ScriptValue :=
  if cname = "Set" then .jsSetInstance arg
  else if cname = "Map" then .jsMapInstance arg
  else .jsUndefined

/-- `new_js_object_from_constructor` from the source: fetch the named global
constructor; if it is undefined, raise a `TypeMappingError` and return the
exception sentinel, otherwise invoke the constructor.  `G` is the read-only
list of names defined on `globalThis`. -/
def new_js_object_from_constructor (G : List String) (ctx : Ctx)
    (cname : String) (arg : ScriptValue) : Ctx × ScriptValue :=
  if G.contains cname then
    (ctx, JS_CallConstructor cname arg)
  else
    (JS_Throw ctx (new_js_error "TypeMappingError"
      ("JS constructor '" ++ cname ++ "' not found.")), .jsException)

/-- `java_throwable_to_js_error` from the source: build a destination error
value with `name` = the runtime class name, `message` = the throwable's
message or `""` when it is null, and `stack` = an array with the default
text rendering of each stack-trace frame in original order.  (The frames'
rendered text is what the host accessors return, so it is carried directly
by the `hThrowable` shape.) -/
def java_throwable_to_js_error (ctx : Ctx) (throwable : HostValue) :
    Ctx × ScriptValue :=
  match throwable with
  | .hThrowable _ clsName message stackLines =>
    let js_name := ("name", ScriptValue.jsString clsName)
    let js_message :=
      match message with
      | some m => ("message", ScriptValue.jsString m)
      | none => ("message", ScriptValue.jsString "")
    let stack_trace := ("stack", ScriptValue.jsArray (stackLines.map ScriptValue.jsString))
    (ctx, .jsError [js_name, js_message, stack_trace])
  | _ => (ctx, .jsUndefined)

/-- The identity tag the converters compare elements against (the enclosing
container is always a real object, so the default is never consulted). -/
def objId (v : HostValue) : Nat := (identOf v).getD 0

/-- Host list accessors (`List.size` / `List.get`, external): the list's
elements in index order. -/
def listElems : HostValue → List HostValue
  | .hList _ es => es
  | _ => []

/-- Host set iterator (`iterator` / `hasNext` / `next`, external): the set's
elements in host iteration order. -/
def setElems : HostValue → List HostValue
  | .hSet _ es => es
  | _ => []

/-- Host map entry-set iterator (external), used both for generic maps and
for string-keyed `JsObject` delegates: the entries in host iteration order,
each read with `Map.Entry.getKey` / `Map.Entry.getValue`. -/
def mapEntries : HostValue → List (HostValue × HostValue)
  | .hMap _ es => es
  | .hJsObject _ es => es
  | _ => []

/-- `GetObjectArrayElement` (external) over all indices of an object array. -/
def objArrayElems : HostValue → List HostValue
  | .hObjectArray _ es => es
  | _ => []

/-- Outcome of the `java_set_to_js_set` iteration: `aborted` when the cycle
guard fired (the intermediate array was freed and `JS_EXCEPTION` is returned
at once); `broke` when an element conversion failed (the source breaks out
of the loop and falls through to the constructor call with the partial
array); `finished` when every element converted. -/
inductive SetLoopOut where
  | aborted : SetLoopOut
  | broke (acc : List ScriptValue) : SetLoopOut
  | finished (acc : List ScriptValue) : SetLoopOut

/-- Outcome of the `java_map_to_js_map` iteration. -/
inductive MapLoopOut where
  | aborted : MapLoopOut
  | finished (acc : List ScriptValue) : MapLoopOut

/-- Outcome of the `java_map_to_js_object` iteration. -/
inductive ObjLoopOut where
  | aborted : ObjLoopOut
  | finished (props : List (String × ScriptValue)) : ObjLoopOut

/-- The payload extracted by `listElems` is no larger than the value. -/
theorem sizeOf_listElems_le (v : HostValue) : sizeOf (listElems v) ≤ sizeOf v := by
  cases v <;> simp [listElems] <;> omega

/-- The payload extracted by `setElems` is no larger than the value. -/
theorem sizeOf_setElems_le (v : HostValue) : sizeOf (setElems v) ≤ sizeOf v := by
  cases v <;> simp [setElems] <;> omega

/-- The payload extracted by `mapEntries` is no larger than the value. -/
theorem sizeOf_mapEntries_le (v : HostValue) : sizeOf (mapEntries v) ≤ sizeOf v := by
  cases v <;> simp [mapEntries] <;> omega

/-- The payload extracted by `objArrayElems` is no larger than the value. -/
theorem sizeOf_objArrayElems_le (v : HostValue) : sizeOf (objArrayElems v) ≤ sizeOf v := by
  cases v <;> simp [objArrayElems] <;> omega

mutual

/-- `jobject_to_js_value` from the source: the Type Dispatcher.  A null
reference maps to `JS_NULL`; otherwise an ordered `IsInstanceOf` chain
routes to the converters (each converter reading the container through the
host accessors, here `objId` plus the payload extractors); if no test
matched (result still `JS_UNDEFINED`), a class-name based secondary
dispatch runs. -/
def jobject_to_js_value (G : List String) (ctx : Ctx) (value : HostValue) :
    Ctx × ScriptValue :=
  if isNullRef value then
    (ctx, .jsNull)
  else
    let step :=
      if isInstanceOf value .cBoolean then
        (ctx, if booleanValue value then ScriptValue.jsBool true else ScriptValue.jsBool false)
      else if isInstanceOf value .cInteger then
        (ctx, ScriptValue.jsNumFloat (intValue value))
      else if isInstanceOf value .cLong then
        (ctx, ScriptValue.jsNumInt (intValue value))
      else if isInstanceOf value .cFloat then
        (ctx, ScriptValue.jsNumFloat (floatValue value))
      else if isInstanceOf value .cDouble then
        (ctx, ScriptValue.jsNumFloat (doubleValue value))
      else if isInstanceOf value .cString then
        (ctx, ScriptValue.jsString (stringChars value))
      else if isInstanceOf value .cList then
        java_list_to_js_array G ctx (objId value) (listElems value)
      else if isInstanceOf value .cJsObject then
        java_map_to_js_object G ctx (objId value) (mapEntries value)
      else if isInstanceOf value .cMap then
        java_map_to_js_map G ctx (objId value) (mapEntries value)
      else if isInstanceOf value .cSet then
        java_set_to_js_set G ctx (objId value) (setElems value)
      else if isInstanceOf value .cThrowable then
        java_throwable_to_js_error ctx value
      else
        (ctx, ScriptValue.jsUndefined)
    if JS_IsUndefined step.2 then
      dispatch_by_class_name G step.1 value
    else
      step
termination_by 8 * sizeOf value + 3
decreasing_by
  all_goals
    have h1 := sizeOf_listElems_le value
    have h2 := sizeOf_setElems_le value
    have h3 := sizeOf_mapEntries_le value
    have h4 := sizeOf_objArrayElems_le value
    omega

/-- The class-name based secondary dispatch at the end of
`jobject_to_js_value`: `kotlin.Unit` maps to `JS_UNDEFINED`; the five
primitive array kinds are bulk-converted with no recursion and no cycle
check; any other bracketed class name is a generic object array; anything
else raises a `TypeMappingError` naming the offending class. -/
def dispatch_by_class_name (G : List String) (ctx : Ctx) (value : HostValue) :
    Ctx × ScriptValue :=
  let cls_name := getClassName value
  if cls_name = "kotlin.Unit" then
    (ctx, ScriptValue.jsUndefined)
  else if cls_name = "[Z" then
    (ctx, ScriptValue.jsArray ((boolArrayElems value).map ScriptValue.jsBool))
  else if cls_name = "[I" then
    (ctx, ScriptValue.jsArray ((intArrayElems value).map ScriptValue.jsNumInt))
  else if cls_name = "[J" then
    (ctx, ScriptValue.jsArray ((longArrayElems value).map ScriptValue.jsNumInt))
  else if cls_name = "[F" then
    (ctx, ScriptValue.jsArray ((floatArrayElems value).map ScriptValue.jsNumFloat))
  else if cls_name = "[D" then
    (ctx, ScriptValue.jsArray ((doubleArrayElems value).map ScriptValue.jsNumFloat))
  else if firstCharIsBracket cls_name then
    java_object_array_to_js_array G ctx (objId value) (objArrayElems value)
  else
    (JS_Throw ctx (new_js_error "TypeMappingError"
      ("Cannot convert java type '" ++ cls_name ++ "' to a js value.")),
     ScriptValue.jsException)
termination_by 8 * sizeOf value + 2
decreasing_by
  all_goals
    have h1 := sizeOf_listElems_le value
    have h2 := sizeOf_setElems_le value
    have h3 := sizeOf_mapEntries_le value
    have h4 := sizeOf_objArrayElems_le value
    omega

/-- The `for` loop of `java_list_to_js_array`: walk the elements in index
order; if an element is the list itself, raise the cycle error and stop with
the exception flag; if an element's conversion yields the sentinel, stop
with the exception flag; otherwise append the converted element.  Returns
the context, the array contents built so far, and `has_exception`. -/
def list_loop (G : List String) (ctx : Ctx) (listId : Nat)
    (elems : List HostValue) (acc : List ScriptValue) :
    Ctx × List ScriptValue × Bool :=
  match elems with
  | [] => (ctx, acc, false)
  | element :: rest =>
    if isSameObject listId element then
      (throw_circular_ref_error ctx, acc, true)
    else
      let r := jobject_to_js_value G ctx element
      if JS_IsException r.2 then
        (r.1, acc, true)
      else
        list_loop G r.1 listId rest (acc ++ [r.2])
termination_by 8 * sizeOf elems

/-- `java_list_to_js_array` from the source: run the element loop; on any
exception free the in-progress array and return `JS_EXCEPTION`, otherwise
return the array. -/
def java_list_to_js_array (G : List String) (ctx : Ctx) (listId : Nat)
    (elems : List HostValue) : Ctx × ScriptValue :=
  let out := list_loop G ctx listId elems []
  if out.2.2 then
    (JS_FreeValue out.1 (.jsArray out.2.1), .jsException)
  else
    (out.1, .jsArray out.2.1)
termination_by 8 * sizeOf elems + 1

/-- The `while (hasNext)` loop of `java_set_to_js_set`: on an element equal
to the set itself, raise the cycle error, free the intermediate array and
abort; on an element conversion yielding the sentinel, break (the source
then still falls through to the constructor call); otherwise append. -/
def set_loop (G : List String) (ctx : Ctx) (setId : Nat)
    (elems : List HostValue) (acc : List ScriptValue) : Ctx × SetLoopOut :=
  match elems with
  | [] => (ctx, .finished acc)
  | key :: rest =>
    if isSameObject setId key then
      (JS_FreeValue (throw_circular_ref_error ctx) (.jsArray acc), .aborted)
    else
      let r := jobject_to_js_value G ctx key
      if JS_IsException r.2 then
        (r.1, .broke acc)
      else
        set_loop G r.1 setId rest (acc ++ [r.2])
termination_by 8 * sizeOf elems

/-- `java_set_to_js_set` from the source: iterate, then construct a
destination Set from the intermediate array via the global `Set`
constructor and free the array.  Note that after a `break` caused by an
element-conversion failure the source still performs the constructor call
with the partially built array. -/
def java_set_to_js_set (G : List String) (ctx : Ctx) (setId : Nat)
    (elems : List HostValue) : Ctx × ScriptValue :=
  match set_loop G ctx setId elems [] with
  | (ctx1, .aborted) => (ctx1, .jsException)
  | (ctx1, .broke acc) | (ctx1, .finished acc) =>
    let r := new_js_object_from_constructor G ctx1 "Set" (.jsArray acc)
    (JS_FreeValue r.1 (.jsArray acc), r.2)
termination_by 8 * sizeOf elems + 1

/-- The entry loop of `java_map_to_js_map`: each entry's key and value are
independently cycle-checked against the map and converted; on a cycle the
intermediate array is freed before aborting; on a key/value conversion
failure the source returns `JS_EXCEPTION` without freeing the intermediate
array.  A converted entry appends the 2-element array `[key, value]`. -/
def map_loop (G : List String) (ctx : Ctx) (mapId : Nat)
    (entries : List (HostValue × HostValue)) (acc : List ScriptValue) :
    Ctx × MapLoopOut :=
  match entries with
  | [] => (ctx, .finished acc)
  | (key, val) :: rest =>
    if isSameObject mapId key then
      (JS_FreeValue (throw_circular_ref_error ctx) (.jsArray acc), .aborted)
    else
      let rk := jobject_to_js_value G ctx key
      if JS_IsException rk.2 then
        (rk.1, .aborted)
      else if isSameObject mapId val then
        (JS_FreeValue (throw_circular_ref_error rk.1) (.jsArray acc), .aborted)
      else
        let rv := jobject_to_js_value G rk.1 val
        if JS_IsException rv.2 then
          (rv.1, .aborted)
        else
          map_loop G rv.1 mapId rest (acc ++ [ScriptValue.jsArray [rk.2, rv.2]])
termination_by 8 * sizeOf entries

/-- `java_map_to_js_map` from the source: iterate the entry set, then
construct a destination Map from the intermediate array of `[key, value]`
pairs via the global `Map` constructor and free the array. -/
def java_map_to_js_map (G : List String) (ctx : Ctx) (mapId : Nat)
    (entries : List (HostValue × HostValue)) : Ctx × ScriptValue :=
  match map_loop G ctx mapId entries [] with
  | (ctx1, .aborted) => (ctx1, .jsException)
  | (ctx1, .finished acc) =>
    let r := new_js_object_from_constructor G ctx1 "Map" (.jsArray acc)
    (JS_FreeValue r.1 (.jsArray acc), r.2)
termination_by 8 * sizeOf entries + 1

/-- The entry loop of `java_map_to_js_object` (string-keyed objects): the
cycle guard runs on the key first; then the key must be a host string or a
`TypeMappingError` is raised and the loop aborts (without freeing the
destination object); the value is cycle-checked (freeing the object on a
hit) and converted (aborting without a free on failure); a converted entry
is committed onto the destination object immediately. -/
def jsobj_loop (G : List String) (ctx : Ctx) (mapId : Nat)
    (entries : List (HostValue × HostValue))
    (props : List (String × ScriptValue)) : Ctx × ObjLoopOut :=
  match entries with
  | [] => (ctx, .finished props)
  | (key, val) :: rest =>
    if isSameObject mapId key then
      (JS_FreeValue (throw_circular_ref_error ctx) (.jsObject props), .aborted)
    else if isInstanceOf key .cString = false then
      (JS_Throw ctx (new_js_error "TypeMappingError"
        "Cannot convert java map to js value: only string keys are supported."),
       .aborted)
    else
      let str_key := stringChars key
      if isSameObject mapId val then
        (JS_FreeValue (throw_circular_ref_error ctx) (.jsObject props), .aborted)
      else
        let rv := jobject_to_js_value G ctx val
        if JS_IsException rv.2 then
          (rv.1, .aborted)
        else
          jsobj_loop G rv.1 mapId rest (props ++ [(str_key, rv.2)])
termination_by 8 * sizeOf entries

/-- `java_map_to_js_object` from the source: iterate the entry set building
a destination plain object keyed by the host string keys. -/
def java_map_to_js_object (G : List String) (ctx : Ctx) (mapId : Nat)
    (entries : List (HostValue × HostValue)) : Ctx × ScriptValue :=
  match jsobj_loop G ctx mapId entries [] with
  | (ctx1, .aborted) => (ctx1, .jsException)
  | (ctx1, .finished props) => (ctx1, .jsObject props)
termination_by 8 * sizeOf entries + 1

/-- The object-array loop inlined in `jobject_to_js_value`: per element the
cycle guard is applied (freeing the in-progress array, raising the cycle
error and stopping on a hit), but the element's conversion result is stored
into the array with no exception check and iteration continues. -/
def objarr_loop (G : List String) (ctx : Ctx) (arrId : Nat)
    (elems : List HostValue) (acc : List ScriptValue) :
    Ctx × List ScriptValue × Bool :=
  match elems with
  | [] => (ctx, acc, false)
  | element :: rest =>
    if isSameObject arrId element then
      (throw_circular_ref_error (JS_FreeValue ctx (.jsArray acc)), acc, true)
    else
      let r := jobject_to_js_value G ctx element
      objarr_loop G r.1 arrId rest (acc ++ [r.2])
termination_by 8 * sizeOf elems

/-- The generic object-array branch of the secondary dispatch: run the
per-element loop; on a cycle the loop already freed the in-progress array,
so return `JS_EXCEPTION`, otherwise return the array. -/
def java_object_array_to_js_array (G : List String) (ctx : Ctx) (arrId : Nat)
    (elems : List HostValue) : Ctx × ScriptValue :=
  let out := objarr_loop G ctx arrId elems []
  if out.2.2 then (out.1, ScriptValue.jsException)
  else (out.1, ScriptValue.jsArray out.2.1)
termination_by 8 * sizeOf elems + 1

end

/-- The destination value is a Map instance. -/
def isMapInstance : ScriptValue → Bool
  | .jsMapInstance _ => true
  | _ => false

/-- The destination value is a plain object. -/
def isPlainObject : ScriptValue → Bool
  | .jsObject _ => true
  | _ => false

/-- The raised error is the cycle-guard error kind. -/
def isCircularKind (e : JsErr) : Bool :=
  e.name == "CircularReferenceError"

/-- An empty context: no pending error, nothing freed yet. -/
def ctx0 : Ctx := ⟨none, []⟩

/-- A global table defining both named constructors the converter uses. -/
def G0 : List String := ["Set", "Map"]

/-- The error raised for the unsupported host class used in the concrete
inputs below. -/
def widgetErr : JsErr :=
  new_js_error "TypeMappingError" "Cannot convert java type 'com.example.Widget' to a js value."

/-- The error raised for a non-string key in the string-keyed-object
converter. -/
def strKeyErr : JsErr :=
  new_js_error "TypeMappingError" "Cannot convert java map to js value: only string keys are supported."

/-- The cycle-guard error with its fixed message. -/
def circularErr : JsErr :=
  new_simple_js_error "Unable to map objects with circular reference."



/-! ### Shared evaluation lemmas

Small stepping lemmas used to evaluate the converter on the inputs that the
claims are settled at.  They are stated with a general context (and, where
the global table is not consulted, a general `G`). -/

/-- Converting the null reference yields the destination null. -/
theorem eval_null (G : List String) (ctx : Ctx) :
    jobject_to_js_value G ctx .hNull = (ctx, .jsNull) := by
  rw [jobject_to_js_value]; rfl

/-- Converting a boxed Boolean yields the destination boolean. -/
theorem eval_boolean (G : List String) (ctx : Ctx) (id : Nat) (b : Bool) :
    jobject_to_js_value G ctx (.hBoolean id b) = (ctx, .jsBool b) := by
  cases b <;>
    simp [jobject_to_js_value, isNullRef, isInstanceOf, booleanValue, JS_IsUndefined]

/-- Converting a boxed Integer goes through `JS_NewFloat64` on its
`intValue`. -/
theorem eval_integer (G : List String) (ctx : Ctx) (id : Nat) (v : Int) :
    jobject_to_js_value G ctx (.hInteger id v) = (ctx, .jsNumFloat (toInt32 v)) := by
  simp [jobject_to_js_value, isNullRef, isInstanceOf, intValue, JS_IsUndefined]

/-- Converting a boxed Long goes through `JS_NewInt64`, but on the value
fetched with the `Integer.intValue` method id, i.e. the Long narrowed to 32
bits. -/
theorem eval_long (G : List String) (ctx : Ctx) (id : Nat) (v : Int) :
    jobject_to_js_value G ctx (.hLong id v) = (ctx, .jsNumInt (toInt32 v)) := by
  simp [jobject_to_js_value, isNullRef, isInstanceOf, intValue, JS_IsUndefined]

/-- Converting a host string yields the destination string. -/
theorem eval_string (G : List String) (ctx : Ctx) (id : Nat) (s : String) :
    jobject_to_js_value G ctx (.hString id s) = (ctx, .jsString s) := by
  simp [jobject_to_js_value, isNullRef, isInstanceOf, stringChars, JS_IsUndefined]

/-- Converting a value of an unsupported host class raises a
`TypeMappingError` naming the class and returns the exception sentinel. -/
theorem eval_widget (G : List String) (ctx : Ctx) (id : Nat) :
    jobject_to_js_value G ctx (.hUnsupported id "com.example.Widget") =
      (JS_Throw ctx widgetErr, .jsException) := by
  simp [jobject_to_js_value, isNullRef, isInstanceOf, JS_IsUndefined,
    dispatch_by_class_name, getClassName, widgetErr,
    show firstCharIsBracket "com.example.Widget" = false from rfl]

/-- A completed `list_loop` run over a first chunk composes with the run
over the remaining elements. -/
theorem list_loop_append (G : List String) (listId : Nat) (l1 : List HostValue) :
    ∀ (ctx ctx1 : Ctx) (acc acc1 : List ScriptValue),
      list_loop G ctx listId l1 acc = (ctx1, acc1, false) →
      ∀ l2, list_loop G ctx listId (l1 ++ l2) acc = list_loop G ctx1 listId l2 acc1 := by
  induction l1 with
  | nil =>
    intro ctx ctx1 acc acc1 h l2
    rw [list_loop] at h
    simp only [Prod.mk.injEq] at h
    obtain ⟨h1, h2, -⟩ := h
    subst h1; subst h2
    rw [List.nil_append]
  | cons e rest ih =>
    intro ctx ctx1 acc acc1 h l2
    rw [List.cons_append]
    simp only [list_loop] at h ⊢
    by_cases hc : isSameObject listId e = true
    · simp only [hc, if_true] at h
      simp at h
    · rw [if_neg hc] at h ⊢
      by_cases he : JS_IsException (jobject_to_js_value G ctx e).2 = true
      · rw [if_pos he] at h
        simp at h
      · rw [if_neg he] at h ⊢
        exact ih _ _ _ _ h l2

/-- A completed `jsobj_loop` run over a first chunk composes with the run
over the remaining entries. -/
theorem jsobj_loop_append (G : List String) (mapId : Nat)
    (l1 : List (HostValue × HostValue)) :
    ∀ (ctx ctx1 : Ctx) (props props1 : List (String × ScriptValue)),
      jsobj_loop G ctx mapId l1 props = (ctx1, .finished props1) →
      ∀ l2, jsobj_loop G ctx mapId (l1 ++ l2) props = jsobj_loop G ctx1 mapId l2 props1 := by
  induction l1 with
  | nil =>
    intro ctx ctx1 props props1 h l2
    rw [jsobj_loop] at h
    simp only [Prod.mk.injEq, ObjLoopOut.finished.injEq] at h
    obtain ⟨h1, h2⟩ := h
    subst h1; subst h2
    rw [List.nil_append]
  | cons kv rest ih =>
    intro ctx ctx1 props props1 h l2
    obtain ⟨key, val⟩ := kv
    rw [List.cons_append]
    simp only [jsobj_loop] at h ⊢
    by_cases hc : isSameObject mapId key = true
    · simp only [hc, if_true] at h
      simp at h
    · rw [if_neg hc] at h ⊢
      by_cases hs : isInstanceOf key .cString = false
      · rw [if_pos hs] at h
        simp at h
      · rw [if_neg hs] at h ⊢
        by_cases hv : isSameObject mapId val = true
        · rw [if_pos hv] at h
          simp at h
        · rw [if_neg hv] at h ⊢
          by_cases he : JS_IsException (jobject_to_js_value G ctx val).2 = true
          · rw [if_pos he] at h
            simp at h
          · rw [if_neg he] at h ⊢
            exact ih _ _ _ _ h l2


/-! ### Stepping lemmas for the concrete inputs of the claims -/

/-- Set iteration over a single unsupported element: the element conversion
raises and yields the sentinel, and the loop breaks with the (empty) partial
array. -/
theorem c1_loop (G : List String) (ctx : Ctx) :
    set_loop G ctx 3 [.hUnsupported 1 "com.example.Widget"] [] =
      (JS_Throw ctx widgetErr, .broke []) := by
  rw [set_loop]
  rw [if_neg (by decide : ¬(isSameObject 3 (HostValue.hUnsupported 1 "com.example.Widget") = true))]
  rw [eval_widget]
  rfl

/-- After the break, `java_set_to_js_set` still constructs a Set instance
from the partial array and returns it. -/
theorem c1_set (ctx : Ctx) :
    java_set_to_js_set G0 ctx 3 [.hUnsupported 1 "com.example.Widget"] =
      (JS_FreeValue (JS_Throw ctx widgetErr) (.jsArray []), .jsSetInstance (.jsArray [])) := by
  rw [java_set_to_js_set, c1_loop]
  rfl

/-- Claim C1 (code_bug evidence): for the host Set `{unsupported}` whose
single element's conversion yields `ExceptionSignal` (and which does not
contain itself), `convert` does not discard the intermediate array and
return `ExceptionSignal`; it performs the Set construction from the partial
array and returns that Set instance with the element's `TypeMappingError`
left pending. -/
theorem C1_set_element_failure_still_constructs_set :
    jobject_to_js_value G0 ctx0 (.hSet 3 [.hUnsupported 1 "com.example.Widget"]) =
      (JS_FreeValue (JS_Throw ctx0 widgetErr) (.jsArray []), .jsSetInstance (.jsArray [])) ∧
    (JS_FreeValue (JS_Throw ctx0 widgetErr) (.jsArray [])).pending = some widgetErr ∧
    (JS_FreeValue (JS_Throw ctx0 widgetErr) (.jsArray [])).freed = [.jsArray []] ∧
    isSameObject 3 (.hUnsupported 1 "com.example.Widget") = false ∧
    JS_IsException (.jsSetInstance (.jsArray [])) = false := by
  refine ⟨?_, rfl, rfl, by decide, rfl⟩
  rw [jobject_to_js_value]
  rw [show isNullRef (HostValue.hSet 3 [.hUnsupported 1 "com.example.Widget"]) = false from rfl]
  simp only [Bool.false_eq_true, if_false, ite_false, isInstanceOf, objId, setElems, identOf,
    Option.getD]
  rw [c1_set]
  rfl

/-- Map entry iteration where the second entry's key is unsupported: the key
conversion raises and the loop aborts without freeing the intermediate
entries array. -/
theorem c2_loop (G : List String) (ctx : Ctx) :
    map_loop G ctx 3 [(.hString 1 "a", .hBoolean 2 true),
      (.hUnsupported 4 "com.example.Widget", .hNull)] [] =
      (JS_Throw ctx widgetErr, .aborted) := by
  rw [map_loop]
  rw [if_neg (by decide : ¬(isSameObject 3 (HostValue.hString 1 "a") = true))]
  rw [eval_string]
  simp only [eval_boolean, eval_widget, map_loop]
  rfl

/-- `java_map_to_js_map` on the same input returns the sentinel with no
free of the intermediate array. -/
theorem c2_map (G : List String) (ctx : Ctx) :
    java_map_to_js_map G ctx 3 [(.hString 1 "a", .hBoolean 2 true),
      (.hUnsupported 4 "com.example.Widget", .hNull)] =
      (JS_Throw ctx widgetErr, .jsException) := by
  rw [java_map_to_js_map, c2_loop]

/-- Claim C2 (code_bug evidence): for a host Map whose second entry's key
fails to convert, `convert` returns `ExceptionSignal`, but the intermediate
array of `[key, value]` pairs is never freed: the free log of the resulting
context is empty, so the "discards the intermediate array" part of the claim
does not hold on the code. -/
theorem C2_map_key_failure_leaks_intermediate_array :
    jobject_to_js_value G0 ctx0 (.hMap 3 [(.hString 1 "a", .hBoolean 2 true),
      (.hUnsupported 4 "com.example.Widget", .hNull)]) =
      (JS_Throw ctx0 widgetErr, .jsException) ∧
    (JS_Throw ctx0 widgetErr).pending = some widgetErr ∧
    (JS_Throw ctx0 widgetErr).freed = [] := by
  refine ⟨?_, rfl, rfl⟩
  rw [jobject_to_js_value]
  rw [show isNullRef (HostValue.hMap 3 [(.hString 1 "a", .hBoolean 2 true),
    (.hUnsupported 4 "com.example.Widget", .hNull)]) = false from rfl]
  simp only [Bool.false_eq_true, if_false, ite_false, isInstanceOf, objId, mapEntries, identOf,
    Option.getD]
  rw [c2_map]
  rfl

/-- Object-array iteration with a failing first element: the loop stores the
exception sentinel into the array and keeps iterating, ending with no
exception flag. -/
theorem c3_loop (G : List String) (ctx : Ctx) :
    objarr_loop G ctx 3 [.hUnsupported 1 "com.example.Widget", .hNull] [] =
      (JS_Throw ctx widgetErr, [.jsException, .jsNull], false) := by
  rw [objarr_loop]
  rw [if_neg (by decide : ¬(isSameObject 3 (HostValue.hUnsupported 1 "com.example.Widget") = true))]
  rw [eval_widget]
  simp only [eval_null, objarr_loop]
  rfl

/-- The object-array converter consequently returns the array as a success
value. -/
theorem c3_arr (G : List String) (ctx : Ctx) :
    java_object_array_to_js_array G ctx 3 [.hUnsupported 1 "com.example.Widget", .hNull] =
      (JS_Throw ctx widgetErr, .jsArray [.jsException, .jsNull]) := by
  rw [java_object_array_to_js_array, c3_loop]
  rfl

/-- The class-name dispatch routes the object array to that converter. -/
theorem c3_dispatch (G : List String) (ctx : Ctx) :
    dispatch_by_class_name G ctx (.hObjectArray 3 [.hUnsupported 1 "com.example.Widget", .hNull]) =
      (JS_Throw ctx widgetErr, .jsArray [.jsException, .jsNull]) := by
  rw [dispatch_by_class_name]
  simp only [getClassName, objId, objArrayElems, identOf, Option.getD,
    show firstCharIsBracket "[Ljava.lang.Object;" = true from rfl]
  rw [c3_arr]
  rfl

/-- Claim C3 (code_bug evidence): for a host object array whose first
element's conversion yields `ExceptionSignal` (and which does not contain
itself), the converter does not stop: it stores the sentinel into the
destination array, converts the remaining element, frees nothing, and
`convert` returns the array as a non-exception value — unlike the List
Converter. -/
theorem C3_object_array_continues_after_element_exception :
    jobject_to_js_value G0 ctx0 (.hObjectArray 3 [.hUnsupported 1 "com.example.Widget", .hNull]) =
      (JS_Throw ctx0 widgetErr, .jsArray [.jsException, .jsNull]) ∧
    (JS_Throw ctx0 widgetErr).freed = [] ∧
    JS_IsException (.jsArray [.jsException, .jsNull]) = false ∧
    isSameObject 3 (.hUnsupported 1 "com.example.Widget") = false ∧
    isSameObject 3 .hNull = false := by
  refine ⟨?_, rfl, rfl, by decide, by decide⟩
  rw [jobject_to_js_value]
  rw [show isNullRef (HostValue.hObjectArray 3
    [.hUnsupported 1 "com.example.Widget", .hNull]) = false from rfl]
  simp only [Bool.false_eq_true, if_false, ite_false, isInstanceOf]
  rw [c3_dispatch]
  rfl

/-- Claim C4 (code_bug evidence): converting the boxed 64-bit value
`2147483648` (one past the 32-bit range) yields the number `-2147483648`:
the source fetches the value with the `Integer.intValue` method id, which
narrows the Long to 32 bits, before handing it to `JS_NewInt64`. -/
theorem C4_long_truncated_to_32_bits :
    jobject_to_js_value G0 ctx0 (.hLong 1 2147483648) = (ctx0, .jsNumInt (-2147483648)) ∧
    toInt32 2147483648 = -2147483648 ∧
    ((-2147483648 : Int) == 2147483648) = false := by
  have ht : toInt32 2147483648 = -2147483648 := by decide
  refine ⟨?_, ht, by decide⟩
  rw [eval_long, ht]

/-- String-keyed-object iteration where the second entry's key is not a host
string: the converter raises the "only string keys" error and aborts without
freeing the destination object it already populated. -/
theorem c5_loop (G : List String) (ctx : Ctx) :
    jsobj_loop G ctx 3 [(.hString 1 "a", .hInteger 2 1), (.hBoolean 4 true, .hInteger 5 2)] [] =
      (JS_Throw ctx strKeyErr, .aborted) := by
  rw [jsobj_loop]
  rw [if_neg (by decide : ¬(isSameObject 3 (HostValue.hString 1 "a") = true))]
  rw [if_neg (by decide : ¬(isInstanceOf (HostValue.hString 1 "a") HClass.cString = false))]
  rw [if_neg (by decide : ¬(isSameObject 3 (HostValue.hInteger 2 1) = true))]
  rw [eval_integer]
  simp only [jsobj_loop]
  rfl

/-- `java_map_to_js_object` on the same input returns the sentinel. -/
theorem c5_obj (G : List String) (ctx : Ctx) :
    java_map_to_js_object G ctx 3 [(.hString 1 "a", .hInteger 2 1), (.hBoolean 4 true, .hInteger 5 2)] =
      (JS_Throw ctx strKeyErr, .jsException) := by
  rw [java_map_to_js_object, c5_loop]

/-- Claim C5 (code_bug evidence): a string-keyed host object with a
non-string second key raises the `TypeMappingError` whose message contains
"only string keys are supported" and `convert` returns `ExceptionSignal`
immediately, but the partially populated destination object is never freed
(the free log is empty) — the partial-commit leak the spec flags in its
error-handling section. -/
theorem C5_nonstring_key_destination_object_not_freed :
    jobject_to_js_value G0 ctx0 (.hJsObject 3 [(.hString 1 "a", .hInteger 2 1),
      (.hBoolean 4 true, .hInteger 5 2)]) =
      (JS_Throw ctx0 strKeyErr, .jsException) ∧
    (JS_Throw ctx0 strKeyErr).pending = some strKeyErr ∧
    (JS_Throw ctx0 strKeyErr).freed = [] ∧
    strKeyErr.message = "Cannot convert java map to js value: " ++
      "only string keys are supported" ++ "." := by
  refine ⟨?_, rfl, rfl, by decide⟩
  rw [jobject_to_js_value]
  rw [show isNullRef (HostValue.hJsObject 3 [(.hString 1 "a", .hInteger 2 1),
    (.hBoolean 4 true, .hInteger 5 2)]) = false from rfl]
  simp only [Bool.false_eq_true, if_false, ite_false, isInstanceOf, objId, mapEntries, identOf,
    Option.getD]
  rw [c5_obj]
  rfl

/-- List iteration where the first element is unsupported: the element
conversion raises first and the loop stops before ever reaching the
self-referential element at index 1. -/
theorem c6_listloop (G : List String) (ctx : Ctx) :
    list_loop G ctx 7 [.hUnsupported 1 "com.example.Widget", .hList 7 []] [] =
      (JS_Throw ctx widgetErr, [], true) := by
  rw [list_loop]
  rw [if_neg (by decide : ¬(isSameObject 7 (HostValue.hUnsupported 1 "com.example.Widget") = true))]
  rw [eval_widget]
  rfl

/-- The list converter frees the (empty) in-progress array and returns the
sentinel. -/
theorem c6_arr (G : List String) (ctx : Ctx) :
    java_list_to_js_array G ctx 7 [.hUnsupported 1 "com.example.Widget", .hList 7 []] =
      (JS_FreeValue (JS_Throw ctx widgetErr) (.jsArray []), .jsException) := by
  rw [java_list_to_js_array, c6_listloop]
  rfl

/-- Claim C6 (counterexample): the host list `[unsupported, self]` contains
itself at index 1 (`isSameObject` with its own tag holds), yet `convert`
raises `TypeMappingError` — not `CircularReferenceError` — because the
earlier element's conversion fails first.  The claim, quantified over every
list containing itself, is therefore false as stated. -/
theorem C6_counterexample_prior_failure_masks_cycle_error :
    jobject_to_js_value G0 ctx0 (.hList 7 [.hUnsupported 1 "com.example.Widget", .hList 7 []]) =
      (JS_FreeValue (JS_Throw ctx0 widgetErr) (.jsArray []), .jsException) ∧
    (JS_FreeValue (JS_Throw ctx0 widgetErr) (.jsArray [])).pending = some widgetErr ∧
    isSameObject 7 (.hList 7 []) = true ∧
    isCircularKind widgetErr = false ∧
    isCircularKind circularErr = true := by
  refine ⟨?_, rfl, by decide, by decide, by decide⟩
  rw [jobject_to_js_value]
  rw [show isNullRef (HostValue.hList 7
    [.hUnsupported 1 "com.example.Widget", .hList 7 []]) = false from rfl]
  simp only [Bool.false_eq_true, if_false, ite_false, isInstanceOf, objId, listElems, identOf,
    Option.getD]
  rw [c6_arr]
  rfl

/-- Claim C6 (amended): for every host list that contains itself at some
index, provided every earlier element converts without `ExceptionSignal`
(and is not the list itself), `convert` raises `CircularReferenceError`,
frees the in-progress destination array, and returns `ExceptionSignal`,
never yielding a destination array. -/
theorem C6_list_self_reference_raises_circular_error (G : List String)
    (ctx ctx1 : Ctx) (id : Nat) (pre rest : List HostValue) (selfE : HostValue)
    (acc : List ScriptValue)
    (hpre : list_loop G ctx id pre [] = (ctx1, acc, false))
    (hself : identOf selfE = some id) :
    jobject_to_js_value G ctx (.hList id (pre ++ selfE :: rest)) =
      (JS_FreeValue (throw_circular_ref_error ctx1) (.jsArray acc), .jsException) ∧
    (JS_FreeValue (throw_circular_ref_error ctx1) (.jsArray acc)).pending = some circularErr ∧
    (JS_FreeValue (throw_circular_ref_error ctx1) (.jsArray acc)).freed =
      ctx1.freed ++ [.jsArray acc] := by
  have hs : isSameObject id selfE = true := by
    simp [isSameObject, hself]
  have hloop : list_loop G ctx id (pre ++ selfE :: rest) [] =
      (throw_circular_ref_error ctx1, acc, true) := by
    rw [list_loop_append G id pre ctx ctx1 [] acc hpre]
    rw [list_loop, if_pos hs]
  refine ⟨?_, rfl, rfl⟩
  simp [jobject_to_js_value, java_list_to_js_array, hloop, isNullRef, isInstanceOf,
    JS_IsUndefined, JS_IsException, objId, identOf, listElems, Option.getD]

/-- Witness for the amended C6 theorem at the list `[true, self]`. -/
theorem C6_list_self_reference_raises_circular_error_witness :
    jobject_to_js_value G0 ctx0 (.hList 7 [.hBoolean 1 true, .hList 7 []]) =
      (JS_FreeValue (throw_circular_ref_error ctx0) (.jsArray [.jsBool true]), .jsException) ∧
    (JS_FreeValue (throw_circular_ref_error ctx0) (.jsArray [.jsBool true])).pending =
      some circularErr ∧
    (JS_FreeValue (throw_circular_ref_error ctx0) (.jsArray [.jsBool true])).freed =
      ctx0.freed ++ [.jsArray [.jsBool true]] := by
  have hpre : list_loop G0 ctx0 7 [.hBoolean 1 true] [] = (ctx0, [.jsBool true], false) := by
    rw [list_loop]
    rw [if_neg (by decide : ¬(isSameObject 7 (HostValue.hBoolean 1 true) = true))]
    rw [eval_boolean]
    simp only [list_loop]
    rfl
  exact C6_list_self_reference_raises_circular_error G0 ctx0 ctx0 7 [.hBoolean 1 true] []
    (.hList 7 []) [.jsBool true] hpre rfl

/-- Claim C7 (confirmed): converting any host exception yields — with no
possibility of `ExceptionSignal` — an error value with `name` the runtime
class name, `message` the exception's message or `""` when it is absent
(never null or undefined), and `stack` an array with one string per frame,
in original order.  The frames' default text rendering is what the host
accessors hand the converter, so it is carried directly by the host shape. -/
theorem C7_throwable_converter_contract (G : List String) (ctx : Ctx) (id : Nat)
    (cls : String) (msg : Option String) (frames : List String) :
    jobject_to_js_value G ctx (.hThrowable id cls msg frames) =
      (ctx, .jsError [("name", .jsString cls), ("message", .jsString (msg.getD "")),
        ("stack", .jsArray (frames.map ScriptValue.jsString))]) ∧
    JS_IsException (jobject_to_js_value G ctx (.hThrowable id cls msg frames)).2 = false ∧
    jobject_to_js_value G ctx (.hThrowable id cls none frames) =
      (ctx, .jsError [("name", .jsString cls), ("message", .jsString ""),
        ("stack", .jsArray (frames.map ScriptValue.jsString))]) := by
  have key : ∀ m : Option String, jobject_to_js_value G ctx (.hThrowable id cls m frames) =
      (ctx, .jsError [("name", .jsString cls), ("message", .jsString (m.getD "")),
        ("stack", .jsArray (frames.map ScriptValue.jsString))]) := by
    intro m
    cases m <;>
      simp [jobject_to_js_value, java_throwable_to_js_error, isNullRef, isInstanceOf,
        JS_IsUndefined, Option.getD]
  exact ⟨key msg, by rw [key msg]; rfl, key none⟩

/-- The dispatcher sends every `JsObject` to the string-keyed-object
converter, whatever the entry-iteration outcome is. -/
theorem C8route (G : List String) (ctx : Ctx) (id : Nat)
    (entries : List (HostValue × HostValue)) :
    jobject_to_js_value G ctx (.hJsObject id entries) =
      java_map_to_js_object G ctx id entries := by
  rcases hout : jsobj_loop G ctx id entries [] with ⟨c, out⟩
  cases out with
  | aborted =>
    simp [jobject_to_js_value, java_map_to_js_object, hout, isNullRef, isInstanceOf,
      JS_IsUndefined, objId, identOf, mapEntries, Option.getD]
  | finished props =>
    simp [jobject_to_js_value, java_map_to_js_object, hout, isNullRef, isInstanceOf,
      JS_IsUndefined, objId, identOf, mapEntries, Option.getD]

/-- Claim C8 (confirmed): a string-keyed `JsObject` value is an instance of
both the JsObject class and the Map interface, and because the JsObject test
precedes the Map test in the dispatch chain the value is routed to the
string-keyed-object converter: the result is that converter's result, never
a destination Map instance, and on success a destination plain object. -/
theorem C8_string_keyed_object_dispatched_before_map (G : List String) (ctx : Ctx)
    (id : Nat) (entries : List (HostValue × HostValue)) :
    isInstanceOf (.hJsObject id entries) .cJsObject = true ∧
    isInstanceOf (.hJsObject id entries) .cMap = true ∧
    jobject_to_js_value G ctx (.hJsObject id entries) =
      java_map_to_js_object G ctx id entries ∧
    isMapInstance (jobject_to_js_value G ctx (.hJsObject id entries)).2 = false ∧
    (isPlainObject (jobject_to_js_value G ctx (.hJsObject id entries)).2 = true ∨
     JS_IsException (jobject_to_js_value G ctx (.hJsObject id entries)).2 = true) := by
  have route := C8route G ctx id entries
  refine ⟨rfl, rfl, route, ?_, ?_⟩
  · rw [route]
    rcases hout : jsobj_loop G ctx id entries [] with ⟨c, out⟩
    cases out <;> simp [java_map_to_js_object, hout, isMapInstance]
  · rw [route]
    rcases hout : jsobj_loop G ctx id entries [] with ⟨c, out⟩
    cases out with
    | aborted =>
      right
      simp [java_map_to_js_object, hout, JS_IsException]
    | finished props =>
      left
      simp [java_map_to_js_object, hout, isPlainObject]

/-- Claim C9 (confirmed): when every element (entry) of a host Set (Map)
converts without `ExceptionSignal` but the destination global named
`Set` (`Map`) is undefined, `convert` raises a `TypeMappingError` with the
exact message naming the missing constructor and returns `ExceptionSignal`. -/
theorem C9_missing_global_constructor_raises_type_mapping_error :
    (∀ (G : List String) (ctx ctx1 : Ctx) (id : Nat) (elems : List HostValue)
       (acc : List ScriptValue),
       G.contains "Set" = false →
       set_loop G ctx id elems [] = (ctx1, .finished acc) →
       (jobject_to_js_value G ctx (.hSet id elems)).2 = .jsException ∧
       (jobject_to_js_value G ctx (.hSet id elems)).1.pending =
         some (new_js_error "TypeMappingError" "JS constructor 'Set' not found.")) ∧
    (∀ (G : List String) (ctx ctx1 : Ctx) (id : Nat)
       (entries : List (HostValue × HostValue)) (acc : List ScriptValue),
       G.contains "Map" = false →
       map_loop G ctx id entries [] = (ctx1, .finished acc) →
       (jobject_to_js_value G ctx (.hMap id entries)).2 = .jsException ∧
       (jobject_to_js_value G ctx (.hMap id entries)).1.pending =
         some (new_js_error "TypeMappingError" "JS constructor 'Map' not found.")) := by
  constructor
  · intro G ctx ctx1 id elems acc hG hloop
    have hGm : ¬("Set" ∈ G) := by simpa using hG
    have h : jobject_to_js_value G ctx (.hSet id elems) =
        (JS_FreeValue (JS_Throw ctx1 (new_js_error "TypeMappingError"
          "JS constructor 'Set' not found.")) (.jsArray acc), .jsException) := by
      simp [jobject_to_js_value, java_set_to_js_set, hloop, isNullRef, isInstanceOf,
        JS_IsUndefined, objId, identOf, setElems, Option.getD,
        new_js_object_from_constructor, hG, hGm]
    rw [h]
    exact ⟨rfl, rfl⟩
  · intro G ctx ctx1 id entries acc hG hloop
    have hGm : ¬("Map" ∈ G) := by simpa using hG
    have h : jobject_to_js_value G ctx (.hMap id entries) =
        (JS_FreeValue (JS_Throw ctx1 (new_js_error "TypeMappingError"
          "JS constructor 'Map' not found.")) (.jsArray acc), .jsException) := by
      simp [jobject_to_js_value, java_map_to_js_map, hloop, isNullRef, isInstanceOf,
        JS_IsUndefined, objId, identOf, mapEntries, Option.getD,
        new_js_object_from_constructor, hG, hGm]
    rw [h]
    exact ⟨rfl, rfl⟩

/-- Witness for C9 with an empty global table: a one-element Set and a
one-entry Map whose contents convert fine. -/
theorem C9_missing_global_constructor_raises_type_mapping_error_witness :
    ((jobject_to_js_value [] ctx0 (.hSet 3 [.hBoolean 1 true])).2 = .jsException ∧
     (jobject_to_js_value [] ctx0 (.hSet 3 [.hBoolean 1 true])).1.pending =
       some (new_js_error "TypeMappingError" "JS constructor 'Set' not found.")) ∧
    ((jobject_to_js_value [] ctx0 (.hMap 3 [(.hString 1 "k", .hBoolean 2 true)])).2 =
       .jsException ∧
     (jobject_to_js_value [] ctx0 (.hMap 3 [(.hString 1 "k", .hBoolean 2 true)])).1.pending =
       some (new_js_error "TypeMappingError" "JS constructor 'Map' not found.")) := by
  have hset : set_loop [] ctx0 3 [.hBoolean 1 true] [] = (ctx0, .finished [.jsBool true]) := by
    rw [set_loop]
    rw [if_neg (by decide : ¬(isSameObject 3 (HostValue.hBoolean 1 true) = true))]
    rw [eval_boolean]
    simp only [set_loop]
    rfl
  have hmap : map_loop [] ctx0 3 [(.hString 1 "k", .hBoolean 2 true)] [] =
      (ctx0, .finished [.jsArray [.jsString "k", .jsBool true]]) := by
    rw [map_loop]
    rw [if_neg (by decide : ¬(isSameObject 3 (HostValue.hString 1 "k") = true))]
    rw [eval_string]
    simp only [eval_boolean, map_loop]
    rfl
  exact ⟨C9_missing_global_constructor_raises_type_mapping_error.1 [] ctx0 ctx0 3
          [.hBoolean 1 true] [.jsBool true] rfl hset,
         C9_missing_global_constructor_raises_type_mapping_error.2 [] ctx0 ctx0 3
          [(.hString 1 "k", .hBoolean 2 true)] [.jsArray [.jsString "k", .jsBool true]] rfl hmap⟩

/-- String-keyed-object iteration whose very first key is a non-string: the
"only string keys" error fires before the self-referential key at entry 1 is
ever reached. -/
theorem c10_loop (G : List String) (ctx : Ctx) :
    jsobj_loop G ctx 3 [(.hBoolean 1 true, .hNull), (.hJsObject 3 [], .hNull)] [] =
      (JS_Throw ctx strKeyErr, .aborted) := by
  rw [jsobj_loop]
  rw [if_neg (by decide : ¬(isSameObject 3 (HostValue.hBoolean 1 true) = true))]
  rfl

/-- The converter returns the sentinel for that input. -/
theorem c10_obj (G : List String) (ctx : Ctx) :
    java_map_to_js_object G ctx 3 [(.hBoolean 1 true, .hNull), (.hJsObject 3 [], .hNull)] =
      (JS_Throw ctx strKeyErr, .jsException) := by
  rw [java_map_to_js_object, c10_loop]

/-- Claim C10 (counterexample): a string-keyed host object that contains
itself as the key of its second entry (`isSameObject` with its own tag
holds) converts to `ExceptionSignal` with `TypeMappingError` raised — not
`CircularReferenceError` — because the first entry's non-string key fails
first.  The claim, quantified over every object containing itself as a key,
is therefore false as stated. -/
theorem C10_counterexample_prior_nonstring_key_masks_cycle_error :
    jobject_to_js_value G0 ctx0 (.hJsObject 3 [(.hBoolean 1 true, .hNull),
      (.hJsObject 3 [], .hNull)]) = (JS_Throw ctx0 strKeyErr, .jsException) ∧
    (JS_Throw ctx0 strKeyErr).pending = some strKeyErr ∧
    isSameObject 3 (.hJsObject 3 []) = true ∧
    isCircularKind strKeyErr = false := by
  refine ⟨?_, rfl, by decide, by decide⟩
  rw [jobject_to_js_value]
  rw [show isNullRef (HostValue.hJsObject 3 [(.hBoolean 1 true, .hNull),
    (.hJsObject 3 [], .hNull)]) = false from rfl]
  simp only [Bool.false_eq_true, if_false, ite_false, isInstanceOf, objId, mapEntries, identOf,
    Option.getD]
  rw [c10_obj]
  rfl

/-- Claim C10 (amended): in the string-keyed-object converter the cycle
guard on each key runs before the string-type check on that key: for every
object containing itself as the key of some entry, provided every earlier
entry is processed without error, `convert` raises `CircularReferenceError`
(freeing the destination object) and returns `ExceptionSignal` — whatever
the runtime type of the self key is (no string-ness hypothesis is needed). -/
theorem C10_self_key_cycle_guard_precedes_string_check (G : List String)
    (ctx ctx1 : Ctx) (id : Nat) (pre rest : List (HostValue × HostValue))
    (selfKey kv : HostValue) (props : List (String × ScriptValue))
    (hpre : jsobj_loop G ctx id pre [] = (ctx1, .finished props))
    (hself : identOf selfKey = some id) :
    jobject_to_js_value G ctx (.hJsObject id (pre ++ (selfKey, kv) :: rest)) =
      (JS_FreeValue (throw_circular_ref_error ctx1) (.jsObject props), .jsException) ∧
    (JS_FreeValue (throw_circular_ref_error ctx1) (.jsObject props)).pending =
      some circularErr ∧
    (JS_FreeValue (throw_circular_ref_error ctx1) (.jsObject props)).freed =
      ctx1.freed ++ [.jsObject props] := by
  have hs : isSameObject id selfKey = true := by
    simp [isSameObject, hself]
  have hloop : jsobj_loop G ctx id (pre ++ (selfKey, kv) :: rest) [] =
      (JS_FreeValue (throw_circular_ref_error ctx1) (.jsObject props), .aborted) := by
    rw [jsobj_loop_append G id pre ctx ctx1 [] props hpre]
    rw [jsobj_loop, if_pos hs]
  refine ⟨?_, rfl, rfl⟩
  simp [jobject_to_js_value, java_map_to_js_object, hloop, isNullRef, isInstanceOf,
    JS_IsUndefined, objId, identOf, mapEntries, Option.getD]

/-- Witness for the amended C10 theorem: the object whose first entry is
`"a" := null` and whose second entry's key is the object itself. -/
theorem C10_self_key_cycle_guard_precedes_string_check_witness :
    jobject_to_js_value G0 ctx0 (.hJsObject 9 [(.hString 1 "a", .hNull),
      (.hJsObject 9 [], .hNull)]) =
      (JS_FreeValue (throw_circular_ref_error ctx0) (.jsObject [("a", .jsNull)]), .jsException) ∧
    (JS_FreeValue (throw_circular_ref_error ctx0) (.jsObject [("a", .jsNull)])).pending =
      some circularErr ∧
    (JS_FreeValue (throw_circular_ref_error ctx0) (.jsObject [("a", .jsNull)])).freed =
      ctx0.freed ++ [.jsObject [("a", .jsNull)]] := by
  have hpre : jsobj_loop G0 ctx0 9 [(.hString 1 "a", .hNull)] [] =
      (ctx0, .finished [("a", .jsNull)]) := by
    rw [jsobj_loop]
    rw [if_neg (by decide : ¬(isSameObject 9 (HostValue.hString 1 "a") = true))]
    rw [if_neg (by decide : ¬(isInstanceOf (HostValue.hString 1 "a") HClass.cString = false))]
    rw [if_neg (by decide : ¬(isSameObject 9 HostValue.hNull = true))]
    rw [eval_null]
    simp only [jsobj_loop]
    rfl
  exact C10_self_key_cycle_guard_precedes_string_check G0 ctx0 ctx0 9
    [(.hString 1 "a", .hNull)] [] (.hJsObject 9 []) .hNull [("a", .jsNull)] hpre rfl

end JObjMap
